import Mathlib

/-!
Verification of the RadioCalico rating subsystem.

The definitions below are a shallow embedding of the rating endpoints of
`server.js` (the embedded single-writer SQLite variant) and
`server-postgres.js` (the client/server PostgreSQL variant), of the shared
schema in `src/database/schema.js`, and of the song-hash utilities in
`src/utils/hash.js` and `public/radio.js`.

The two `songs` and `ratings` relations are modelled as lists of rows; the
`created_at` column (a storage-supplied clock default that is never read by
the rating subsystem) is omitted.  SQL row retrieval (`.get`) is modelled by
`List.find?`, aggregation (`SUM(CASE WHEN ...)`) by `List.countP`, and the
`AUTOINCREMENT` / `SERIAL` surrogate keys by explicit `next...Id` counters.
-/

/-- A row of the `songs` table
(`songs(id, title, artist, album, song_hash UNIQUE, created_at)`). -/
structure Song where
  id : Nat
  title : String
  artist : String
  album : Option String
  songHash : String
deriving Repr, DecidableEq

/-- A row of the `ratings` table
(`ratings(id, song_id FK, user_id, rating CHECK IN (-1,1), created_at,
UNIQUE(song_id,user_id))`). -/
structure Rating where
  id : Nat
  songId : Nat
  userId : String
  value : Int
deriving Repr, DecidableEq

/-- The persistent store: both relations plus the auto-increment counters. -/
structure Store where
  songs : List Song
  ratings : List Rating
  nextSongId : Nat
  nextRatingId : Nat
deriving Repr, DecidableEq

/-- A freshly initialised store (both tables empty; SQLite/PostgreSQL
auto-increment ids start at 1). -/
def emptyStore : Store := ⟨[], [], 1, 1⟩

/-- The JSON body of `POST /api/song/:songHash/rate`:
`{rating, userId, title, artist, album?}`.  Any field may be absent. -/
structure RateReq where
  rating : Option Int
  userId : Option String
  title : Option String
  artist : Option String
  album : Option String
deriving Repr, DecidableEq

/-- Storage-level error kinds: `uniqueConstraint` models
`SQLITE_CONSTRAINT_UNIQUE` (error code `23505` in PostgreSQL),
`checkConstraint` models a `CHECK` violation, `typeError` models the
JavaScript `TypeError` raised when reading `.id` of an undefined row, and
`otherError` covers any other storage failure. -/
inductive SqlErr where
  | uniqueConstraint
  | checkConstraint
  | typeError
  | otherError
deriving Repr, DecidableEq

/-- Embeds `SELECT id FROM songs WHERE song_hash = ?` followed by `.get`:
the first row whose `song_hash` matches. -/
def findSongByHash (st : Store) (h : String) : Option Song :=
  st.songs.find? (fun s => decide (s.songHash = h))

/-- Embeds `INSERT INTO songs (title, artist, album, song_hash) VALUES (?, ?, ?, ?)`:
fails with a uniqueness violation exactly when a row with this `song_hash`
already exists, otherwise appends the new row and reports
`lastInsertRowid`. -/
def insertSongAttempt (st : Store) (title artist : String) (album : Option String)
    (h : String) : Except SqlErr (Nat × Store) :=
  if (findSongByHash st h).isSome then
    .error .uniqueConstraint
  else
    .ok (st.nextSongId,
      { st with
          songs := st.songs ++ [⟨st.nextSongId, title, artist, album, h⟩],
          nextSongId := st.nextSongId + 1 })

/-- The `try/catch` around the song insert in `server.js` (lines 150-160):
on `SQLITE_CONSTRAINT_UNIQUE` the existing row is re-read by `songHash`
(`SELECT id FROM songs WHERE song_hash = ?`); if that re-read yields no row
the JavaScript `song.id` access throws a `TypeError`; any other error is
re-thrown. -/
def catchSongInsert (attempt : Except SqlErr (Nat × Store)) (st : Store)
    (h : String) : Except SqlErr (Nat × Store) :=
  match attempt with
  | .ok r => .ok r
  | .error .uniqueConstraint =>
    match findSongByHash st h with
    | some s => .ok (s.id, st)
    | none => .error .typeError
  | .error e => .error e

/-- The insert-or-fetch song step of the SQLite transaction in `server.js`. -/
def ensureSongSqlite (st : Store) (title artist : String) (album : Option String)
    (h : String) : Except SqlErr (Nat × Store) :=
  catchSongInsert (insertSongAttempt st title artist album h) st h

/-- Embeds `INSERT INTO songs ... ON CONFLICT (song_hash) DO NOTHING RETURNING id`
(`server-postgres.js` line 239): yields no row exactly when a row with this
`song_hash` already exists, otherwise inserts and returns the new id. -/
def insertSongDoNothing (st : Store) (title artist : String) (album : Option String)
    (h : String) : Option (Nat × Store) :=
  if (findSongByHash st h).isSome then
    none
  else
    some (st.nextSongId,
      { st with
          songs := st.songs ++ [⟨st.nextSongId, title, artist, album, h⟩],
          nextSongId := st.nextSongId + 1 })

/-- The insert-or-fetch song step of the PostgreSQL transaction in
`server-postgres.js` (lines 238-247): attempt the conflict-tolerant insert;
if it returned no row, re-select by `songHash`; reading `.id` of a missing
row would raise a `TypeError`. -/
def ensureSongPg (st : Store) (title artist : String) (album : Option String)
    (h : String) : Except SqlErr (Nat × Store) :=
  match insertSongDoNothing st title artist album h with
  | some (id, st1) => .ok (id, st1)
  | none =>
    match findSongByHash st h with
    | some s => .ok (s.id, st)
    | none => .error .typeError

/-- Does a rating row hit the `UNIQUE(song_id, user_id)` key? -/
def isRatingKey (songId : Nat) (userId : String) (r : Rating) : Bool :=
  decide (r.songId = songId) && decide (r.userId = userId)

/-- The `DO UPDATE SET rating = excluded.rating` action on the conflicting
row; other rows are untouched. -/
def setRatingValue (songId : Nat) (userId : String) (v : Int) (r : Rating) : Rating :=
  if isRatingKey songId userId r then { r with value := v } else r

/-- Embeds `INSERT INTO ratings (song_id, user_id, rating) VALUES (?, ?, ?)
ON CONFLICT(song_id, user_id) DO UPDATE SET rating = excluded.rating`:
if a row with this `(song_id, user_id)` key exists its `rating` is
overwritten in place, otherwise a new row is appended. -/
def upsertRating (st : Store) (songId : Nat) (userId : String) (v : Int) : Store :=
  if st.ratings.any (isRatingKey songId userId) then
    { st with ratings := st.ratings.map (setRatingValue songId userId v) }
  else
    { st with
        ratings := st.ratings ++ [⟨st.nextRatingId, songId, userId, v⟩],
        nextRatingId := st.nextRatingId + 1 }

/-- Embeds `SUM(CASE WHEN rating = 1 THEN 1 ELSE 0 END) ... FROM ratings WHERE
song_id = ?` (with the `|| 0` null-coalescing of the handlers). -/
def countThumbsUp (rs : List Rating) (songId : Nat) : Nat :=
  rs.countP (fun r => decide (r.songId = songId) && decide (r.value = 1))

/-- Embeds `SUM(CASE WHEN rating = -1 THEN 1 ELSE 0 END) ... FROM ratings WHERE
song_id = ?` (with the `|| 0` null-coalescing of the handlers). -/
def countThumbsDown (rs : List Rating) (songId : Nat) : Nat :=
  rs.countP (fun r => decide (r.songId = songId) && decide (r.value = -1))

/-- Body text of the `400` response for a falsy required field. -/
def missingFieldsMsg : String := "Missing required fields"

/-- Body text of the `400` response for a rating outside the two values. -/
def invalidRatingMsg : String := "Rating must be 1 (thumbs up) or -1 (thumbs down)"

/-- Text of the `message` field of the 200 response of the rate endpoint. -/
def successMsg : String := "Rating submitted successfully"

/-- Response of `POST /api/song/:songHash/rate`: `ok` is the
`200 {message, thumbs_up, thumbs_down}` body, `badRequest` the
`400 {error}` body, `serverError` the `500 {error}` path. -/
inductive RateResponse where
  | ok (message : String) (thumbsUp thumbsDown : Nat)
  | badRequest (error : String)
  | serverError
deriving Repr, DecidableEq

/-- The `POST /api/song/:songHash/rate` handler of `server.js`
(lines 133-191), parametrised by the insert-or-fetch song step so that the
behaviour under a failing storage primitive can be stated.  The first guard
is JavaScript truthiness (`!rating || !userId || !title || !artist`): an
absent field, the number `0`, or an empty string is falsy.  A thrown storage
error aborts the transaction (full rollback, store unchanged) and the outer
`catch` answers 500. -/
def postRateSqliteGen
    (ensure : Store → String → String → Option String → String → Except SqlErr (Nat × Store))
    (st : Store) (songHash : String) (req : RateReq) : RateResponse × Store :=
  match req.rating, req.userId, req.title, req.artist with
  | some v, some u, some t, some a =>
    if v = 0 ∨ u = "" ∨ t = "" ∨ a = "" then
      (.badRequest missingFieldsMsg, st)
    else if v ≠ 1 ∧ v ≠ -1 then
      (.badRequest invalidRatingMsg, st)
    else
      match ensure st t a req.album songHash with
      | .ok (songId, st1) =>
        let st2 := upsertRating st1 songId u v
        (.ok successMsg (countThumbsUp st2.ratings songId) (countThumbsDown st2.ratings songId),
         st2)
      | .error _ => (.serverError, st)
  | _, _, _, _ => (.badRequest missingFieldsMsg, st)

/-- The `POST /api/song/:songHash/rate` handler of `server.js`. -/
def postRateSqlite (st : Store) (songHash : String) (req : RateReq) :
    RateResponse × Store :=
  postRateSqliteGen ensureSongSqlite st songHash req

/-- The `POST /api/song/:songHash/rate` handler of `server-postgres.js`
(lines 216-310, production branch): same validation, PostgreSQL
`ON CONFLICT DO NOTHING` insert-or-fetch inside a `BEGIN`/`COMMIT`
transaction with `ROLLBACK` on error, same upsert, same aggregate read
(whose `parseInt(...) || 0` coalescing is the identity on the counts). -/
def postRatePg (st : Store) (songHash : String) (req : RateReq) :
    RateResponse × Store :=
  match req.rating, req.userId, req.title, req.artist with
  | some v, some u, some t, some a =>
    if v = 0 ∨ u = "" ∨ t = "" ∨ a = "" then
      (.badRequest missingFieldsMsg, st)
    else if v ≠ 1 ∧ v ≠ -1 then
      (.badRequest invalidRatingMsg, st)
    else
      match ensureSongPg st t a req.album songHash with
      | .ok (songId, st1) =>
        let st2 := upsertRating st1 songId u v
        (.ok successMsg (countThumbsUp st2.ratings songId) (countThumbsDown st2.ratings songId),
         st2)
      | .error _ => (.serverError, st)
  | _, _, _, _ => (.badRequest missingFieldsMsg, st)

/-- The rows produced by `FROM songs s LEFT JOIN ratings r ON s.id = r.song_id
WHERE s.song_hash = ?` that carry an actual rating (the null-extended row of
a rating-less song contributes 0 to both sums and is dropped here). -/
def joinedRatings (st : Store) (h : String) : List Rating :=
  st.ratings.filter
    (fun r => st.songs.any (fun s => decide (s.songHash = h) && decide (s.id = r.songId)))

/-- The `GET /api/song/:songHash/ratings` handler of `server.js`
(lines 110-131): `(thumbs_up, thumbs_down)` of the 200 body; an unknown song
yields NULL sums which `|| 0` turns into zeros. -/
def getRatingsSqlite (st : Store) (h : String) : Nat × Nat :=
  ((joinedRatings st h).countP (fun r => decide (r.value = 1)),
   (joinedRatings st h).countP (fun r => decide (r.value = -1)))

/-- The `GET /api/song/:songHash/ratings` handler of `server-postgres.js`
(lines 193-214): identical query text; `parseInt(result?.thumbs_up) || 0`
turns NULL sums into zeros and is the identity on the counts. -/
def getRatingsPg (st : Store) (h : String) : Nat × Nat :=
  ((joinedRatings st h).countP (fun r => decide (r.value = 1)),
   (joinedRatings st h).countP (fun r => decide (r.value = -1)))

/-- The `GET /api/song/:songHash/user-rating/:userId` handler of `server.js`
(lines 193-209): `SELECT r.rating FROM songs s JOIN ratings r ON s.id =
r.song_id WHERE s.song_hash = ? AND r.user_id = ?`, `.get` of the first row;
`{rating: null}` when no row matches. -/
def getUserRatingSqlite (st : Store) (h u : String) : Option Int :=
  (st.ratings.find?
      (fun r => decide (r.userId = u) &&
        st.songs.any (fun s => decide (s.id = r.songId) && decide (s.songHash = h)))).map
    Rating.value

/-- The `GET /api/song/:songHash/user-rating/:userId` handler of
`server-postgres.js` (lines 312-328): identical query text and null
handling. -/
def getUserRatingPg (st : Store) (h u : String) : Option Int :=
  (st.ratings.find?
      (fun r => decide (r.userId = u) &&
        st.songs.any (fun s => decide (s.id = r.songId) && decide (s.songHash = h)))).map
    Rating.value

/-- The rating rows a client observes for the pair `(songHash, userId)`:
rows joined to a song carrying this hash and belonging to this user. -/
def userRatingRows (st : Store) (h u : String) : List Rating :=
  st.ratings.filter
    (fun r => decide (r.userId = u) &&
      st.songs.any (fun s => decide (s.id = r.songId) && decide (s.songHash = h)))

/-- Constraint `songs.song_hash UNIQUE`: distinct rows carry distinct hashes. -/
def SongHashesUnique (st : Store) : Prop :=
  st.songs.Pairwise (fun s1 s2 => s1.songHash ≠ s2.songHash)

/-- Constraint of the primary key `songs.id`: distinct rows carry distinct ids. -/
def SongIdsUnique (st : Store) : Prop :=
  st.songs.Pairwise (fun s1 s2 => s1.id ≠ s2.id)

/-- Every allocated song id is below the auto-increment counter. -/
def SongIdsFresh (st : Store) : Prop :=
  ∀ s ∈ st.songs, s.id < st.nextSongId

/-- Constraint `UNIQUE(song_id, user_id)`: distinct rating rows differ in key. -/
def RatingKeysUnique (st : Store) : Prop :=
  st.ratings.Pairwise (fun r1 r2 => r1.songId ≠ r2.songId ∨ r1.userId ≠ r2.userId)

/-- Constraint `CHECK (rating IN (-1, 1))`: every stored value is `1` or `-1`. -/
def RatingValuesValid (st : Store) : Prop :=
  ∀ r ∈ st.ratings, r.value = 1 ∨ r.value = -1

/-- The conjunction of the schema constraints together with freshness of the
song id counter: the states reachable through the API. -/
def StoreInv (st : Store) : Prop :=
  SongHashesUnique st ∧ SongIdsUnique st ∧ SongIdsFresh st ∧
    RatingKeysUnique st ∧ RatingValuesValid st

/-- JavaScript `ToInt32`: the `hash = hash & hash` / `<<` conversions of the
hash loop reduce a number to a signed 32-bit integer. -/
def toInt32 (n : Int) : Int :=
  let m := n.emod 4294967296
  if m < 2147483648 then m else m - 4294967296

/-- One iteration of the hash loop of `hashString`:
`hash = ((hash << 5) - hash) + char; hash = hash & hash`.  The shift operates
on (and wraps to) 32-bit integers; the subsequent `& `-conversion wraps the
sum back to 32 bits. -/
def hashStep (h : Int) (c : Nat) : Int :=
  toInt32 (toInt32 (h * 32) - h + c)

/-- JavaScript digit of `Number.prototype.toString(36)`: `0`-`9` then
`a`-`z`. -/
def digit36 (n : Nat) : Char :=
  if n < 10 then Char.ofNat (48 + n) else Char.ofNat (87 + n)

/-- Base-36 digits of `n`, most significant first.  The fuel argument bounds
the number of digits; eight digits suffice for every 32-bit magnitude
(`2^31 < 36^8`), which is the only range `hashString` produces. -/
def toBase36Digits : Nat → Nat → List Char
  | 0, _ => []
  | fuel + 1, n => if n = 0 then [] else toBase36Digits fuel (n / 36) ++ [digit36 (n % 36)]

/-- Renders `Math.abs(hash).toString(36)` for a 32-bit magnitude. -/
def toBase36 (n : Nat) : String :=
  if n = 0 then "0" else String.mk (toBase36Digits 8 n)

/-- Embeds `hashString` of `src/utils/hash.js` (lines 11-23): fold the 32-bit hash
step over the UTF-16 code units, then render `Math.abs(hash)` in base 36.
(Characters are modelled by their Unicode scalar values, which agree with
`charCodeAt` on the Basic Multilingual Plane.) -/
def hashString (s : String) : String :=
  toBase36 (Int.natAbs (s.data.foldl (fun h c => hashStep h c.toNat) 0))

/-- The `hashString` method of `RadioPlayer` in `public/radio.js`
(lines 281-289): a verbatim copy of the utility above. -/
def radioHashString (s : String) : String :=
  toBase36 (Int.natAbs (s.data.foldl (fun h c => hashStep h c.toNat) 0))

/-- A track metadata object as far as the hash functions read it. -/
structure Track where
  artist : String
  title : String
  album : Option String
deriving Repr, DecidableEq

/-- JavaScript `track.album || ''`: an absent album is falsy and yields the
empty string (never the text `"undefined"`); an empty album string is also
falsy and yields itself. -/
def albumOrEmpty : Option String → String
  | none => ""
  | some a => a

/-- The hash input `` `${track.artist || ''}_${track.title || ''}_${track.album || ''}`.toLowerCase() ``
shared by `src/utils/hash.js` line 38 and `public/radio.js` line 316.
(`artist || ''` and `title || ''` are the identity on strings: an empty
string is replaced by the empty string.) -/
def songHashInput (t : Track) : String :=
  (t.artist ++ "_" ++ t.title ++ "_" ++ albumOrEmpty t.album).toLower

/-- Embeds `getSongHash` of `src/utils/hash.js` (lines 33-40): guard that `artist`
and `title` are truthy, then hash the lower-cased concatenation. -/
def getSongHashUtils (t : Track) : Except String String :=
  if t.artist = "" ∨ t.title = "" then
    .error "getSongHash requires track object with artist and title"
  else
    .ok (hashString (songHashInput t))

/-- The `getSongHash` method of `RadioPlayer` in `public/radio.js`
(lines 315-318): no guard, same input expression, the player's own copy of
the hash loop. -/
def radioGetSongHash (t : Track) : String :=
  radioHashString (songHashInput t)

/-- A sequence of `submitRating` calls for one `(songHash, userId)` pair with
fixed metadata and the given list of rating values, applied left to right. -/
def submitSeq (st : Store) (h u t a : String) (alb : Option String)
    (vs : List Int) : Store :=
  vs.foldl (fun s v => (postRateSqlite s h ⟨some v, some u, some t, some a, alb⟩).2) st

lemma storeInv_empty : StoreInv emptyStore := by
  refine ⟨?_, ?_, ?_, ?_, ?_⟩ <;> simp [SongHashesUnique, SongIdsUnique, SongIdsFresh,
    RatingKeysUnique, RatingValuesValid, emptyStore, StoreInv]

lemma pairwise_mem_eq {α : Type} {R : α → α → Prop} {l : List α} (hp : l.Pairwise R)
    {x y : α} (hx : x ∈ l) (hy : y ∈ l) (h1 : ¬R x y) (h2 : ¬R y x) : x = y := by
  induction l with
  | nil => cases hx
  | cons a t ih =>
    rcases List.pairwise_cons.mp hp with ⟨ha, ht⟩
    rcases List.mem_cons.mp hx with rfl | hx'
    · rcases List.mem_cons.mp hy with rfl | hy'
      · rfl
      · exact absurd (ha y hy') h1
    · rcases List.mem_cons.mp hy with rfl | hy'
      · exact absurd (ha x hx') h2
      · exact ih ht hx' hy'

lemma exists_first_match {α : Type} (p : α → Bool) {l : List α} (hl : l.any p = true) :
    ∃ A x B, l = A ++ x :: B ∧ p x = true ∧ ∀ a ∈ A, p a = false := by
  induction l with
  | nil => simp at hl
  | cons a t ih =>
    by_cases hpa : p a = true
    · exact ⟨[], a, t, rfl, hpa, by simp⟩
    · have hpa' : p a = false := by revert hpa; cases p a <;> simp
      have ht : t.any p = true := by
        rcases List.any_eq_true.mp hl with ⟨x, hx, hpx⟩
        rcases List.mem_cons.mp hx with rfl | hx'
        · exact absurd hpx hpa
        · exact List.any_eq_true.mpr ⟨x, hx', hpx⟩
      rcases ih ht with ⟨A, x, B, hEq, hpx, hA⟩
      refine ⟨a :: A, x, B, by simp [hEq], hpx, ?_⟩
      intro y hy
      rcases List.mem_cons.mp hy with rfl | hy'
      · exact hpa'
      · exact hA y hy'

lemma map_eq_self_of_id {α : Type} {f : α → α} {l : List α} (h : ∀ x ∈ l, f x = x) :
    l.map f = l := by
  induction l with
  | nil => rfl
  | cons a t ih =>
    simp only [List.map_cons]
    rw [h a (List.mem_cons_self a t), ih (fun x hx => h x (List.mem_cons_of_mem a hx))]

lemma isRatingKey_iff {sid : Nat} {u : String} {r : Rating} :
    isRatingKey sid u r = true ↔ r.songId = sid ∧ r.userId = u := by
  simp [isRatingKey]

lemma isRatingKey_false_iff {sid : Nat} {u : String} {r : Rating} :
    isRatingKey sid u r = false ↔ ¬(r.songId = sid ∧ r.userId = u) := by
  rw [← isRatingKey_iff]; cases isRatingKey sid u r <;> simp

lemma setRatingValue_songId (sid : Nat) (u : String) (v : Int) (r : Rating) :
    (setRatingValue sid u v r).songId = r.songId := by
  unfold setRatingValue; split <;> rfl

lemma setRatingValue_userId (sid : Nat) (u : String) (v : Int) (r : Rating) :
    (setRatingValue sid u v r).userId = r.userId := by
  unfold setRatingValue; split <;> rfl

lemma setRatingValue_of_not_key {sid : Nat} {u : String} (v : Int) {r : Rating}
    (h : isRatingKey sid u r = false) : setRatingValue sid u v r = r := by
  unfold setRatingValue
  rw [h]
  rfl

lemma findSongByHash_mem {st : Store} {h : String} {s : Song}
    (hf : findSongByHash st h = some s) : s ∈ st.songs ∧ s.songHash = h := by
  unfold findSongByHash at hf
  refine ⟨List.mem_of_find?_eq_some hf, ?_⟩
  have hp := List.find?_some hf
  simpa using hp

lemma findSongByHash_none {st : Store} {h : String} (hf : findSongByHash st h = none) :
    ∀ s ∈ st.songs, s.songHash ≠ h := by
  unfold findSongByHash at hf
  intro s hs
  have := List.find?_eq_none.mp hf s hs
  simpa using this

lemma ensureSongSqlite_found {st : Store} {h : String} {s : Song}
    (t a : String) (alb : Option String) (hf : findSongByHash st h = some s) :
    ensureSongSqlite st t a alb h = .ok (s.id, st) := by
  simp [ensureSongSqlite, insertSongAttempt, catchSongInsert, hf]

lemma ensureSongSqlite_new {st : Store} {h : String}
    (t a : String) (alb : Option String) (hf : findSongByHash st h = none) :
    ensureSongSqlite st t a alb h =
      .ok (st.nextSongId,
        { st with
            songs := st.songs ++ [⟨st.nextSongId, t, a, alb, h⟩],
            nextSongId := st.nextSongId + 1 }) := by
  simp [ensureSongSqlite, insertSongAttempt, catchSongInsert, hf]

lemma ensureSong_sqlite_eq_pg (st : Store) (t a : String) (alb : Option String)
    (h : String) :
    ensureSongSqlite st t a alb h = ensureSongPg st t a alb h := by
  cases hf : findSongByHash st h <;>
    simp [ensureSongSqlite, insertSongAttempt, catchSongInsert,
      ensureSongPg, insertSongDoNothing, hf]

lemma ensureSong_spec (st : Store) (t a : String) (alb : Option String) (h : String)
    (hinv : StoreInv st) :
    ∃ sid st1, ensureSongSqlite st t a alb h = .ok (sid, st1) ∧
      st1.ratings = st.ratings ∧ st1.nextRatingId = st.nextRatingId ∧
      StoreInv st1 ∧
      (∃ s1 ∈ st1.songs, s1.id = sid ∧ s1.songHash = h) ∧
      (∀ s1 ∈ st1.songs, s1.songHash = h → s1.id = sid) := by
  obtain ⟨hH, hI, hF, hK, hV⟩ := hinv
  cases hf : findSongByHash st h with
  | some s =>
    obtain ⟨hm, hsh⟩ := findSongByHash_mem hf
    refine ⟨s.id, st, ensureSongSqlite_found t a alb hf, rfl, rfl,
      ⟨hH, hI, hF, hK, hV⟩, ⟨s, hm, rfl, hsh⟩, ?_⟩
    intro s1 hs1 hsh1
    have : s1 = s := by
      refine pairwise_mem_eq hH hs1 hm ?_ ?_ <;> simp [hsh1, hsh]
    rw [this]
  | none =>
    have hnot := findSongByHash_none hf
    refine ⟨st.nextSongId, _, ensureSongSqlite_new t a alb hf, rfl, rfl, ?_, ?_, ?_⟩
    · refine ⟨?_, ?_, ?_, hK, hV⟩
      · unfold SongHashesUnique at *
        rw [List.pairwise_append]
        refine ⟨hH, by simp, ?_⟩
        intro x hx b hb
        simp only [List.mem_singleton] at hb
        rw [hb]
        exact hnot x hx
      · unfold SongIdsUnique at *
        rw [List.pairwise_append]
        refine ⟨hI, by simp, ?_⟩
        intro x hx b hb
        simp only [List.mem_singleton] at hb
        rw [hb]
        exact Nat.ne_of_lt (hF x hx)
      · unfold SongIdsFresh at *
        intro s1 hs1
        rcases List.mem_append.mp hs1 with hs1' | hs1'
        · exact Nat.lt_succ_of_lt (hF s1 hs1')
        · simp only [List.mem_singleton] at hs1'
          rw [hs1']
          exact Nat.lt_succ_self _
    · exact ⟨⟨st.nextSongId, t, a, alb, h⟩, by simp, rfl, rfl⟩
    · intro s1 hs1 hsh1
      rcases List.mem_append.mp hs1 with hs1' | hs1'
      · exact absurd hsh1 (hnot s1 hs1')
      · simp only [List.mem_singleton] at hs1'
        rw [hs1']

lemma upsert_decomp (st : Store) (sid : Nat) (u : String) (v : Int)
    (hk : RatingKeysUnique st) :
    ∃ A B i,
      (∀ x ∈ A, isRatingKey sid u x = false) ∧
      (∀ x ∈ B, isRatingKey sid u x = false) ∧
      (upsertRating st sid u v).ratings = A ++ ⟨i, sid, u, v⟩ :: B ∧
      (upsertRating st sid u v).songs = st.songs ∧
      (st.ratings = A ++ B ∨
        ∃ r0 : Rating, r0.songId = sid ∧ r0.userId = u ∧
          st.ratings = A ++ r0 :: B ∧ i = r0.id) := by
  unfold RatingKeysUnique at hk
  by_cases hany : st.ratings.any (isRatingKey sid u) = true
  · obtain ⟨A, x, B, hEq, hpx, hA⟩ := exists_first_match _ hany
    obtain ⟨hxs, hxu⟩ := isRatingKey_iff.mp hpx
    have hkAB : List.Pairwise
        (fun r1 r2 : Rating => r1.songId ≠ r2.songId ∨ r1.userId ≠ r2.userId)
        (A ++ x :: B) := hEq ▸ hk
    have hB : ∀ b ∈ B, isRatingKey sid u b = false := by
      intro b hb
      rcases List.pairwise_append.mp hkAB with ⟨_, hxB, _⟩
      rcases List.pairwise_cons.mp hxB with ⟨hxb, _⟩
      rcases hxb b hb with hne | hne
      · exact isRatingKey_false_iff.mpr (fun hc => hne (by rw [hxs, hc.1]))
      · exact isRatingKey_false_iff.mpr (fun hc => hne (by rw [hxu, hc.2]))
    refine ⟨A, B, x.id, hA, hB, ?_, ?_, Or.inr ⟨x, hxs, hxu, hEq, rfl⟩⟩
    · simp only [upsertRating, hany, if_true]
      rw [hEq, List.map_append, List.map_cons]
      rw [map_eq_self_of_id (fun y hy => setRatingValue_of_not_key v (hA y hy)),
        map_eq_self_of_id (fun y hy => setRatingValue_of_not_key v (hB y hy))]
      have : setRatingValue sid u v x = ⟨x.id, sid, u, v⟩ := by
        unfold setRatingValue
        rw [hpx]
        simp only [if_true]
        cases x
        simp_all
      rw [this]
    · simp only [upsertRating, hany, if_true]
  · have hany' : st.ratings.any (isRatingKey sid u) = false := by
      revert hany; cases st.ratings.any (isRatingKey sid u) <;> simp
    have hall := List.any_eq_false.mp hany'
    refine ⟨st.ratings, [], st.nextRatingId, ?_, by simp, ?_, ?_, Or.inl (by simp)⟩
    · intro y hy
      have := hall y hy
      revert this; cases isRatingKey sid u y <;> simp
    · simp only [upsertRating, hany', Bool.false_eq_true, if_false]
    · simp only [upsertRating, hany', Bool.false_eq_true, if_false]

lemma upsert_songs (st : Store) (sid : Nat) (u : String) (v : Int) :
    (upsertRating st sid u v).songs = st.songs ∧
      (upsertRating st sid u v).nextSongId = st.nextSongId := by
  unfold upsertRating; split <;> exact ⟨rfl, rfl⟩

lemma upsert_inv (st : Store) (sid : Nat) (u : String) (v : Int)
    (hinv : StoreInv st) (hv : v = 1 ∨ v = -1) : StoreInv (upsertRating st sid u v) := by
  obtain ⟨hH, hI, hF, hK, hV⟩ := hinv
  obtain ⟨hsongs, hnext⟩ := upsert_songs st sid u v
  refine ⟨?_, ?_, ?_, ?_, ?_⟩
  · unfold SongHashesUnique at *; rw [hsongs]; exact hH
  · unfold SongIdsUnique at *; rw [hsongs]; exact hI
  · unfold SongIdsFresh at *; rw [hsongs, hnext]; exact hF
  · unfold RatingKeysUnique at *
    unfold upsertRating
    split
    · simp only []
      rw [List.pairwise_map]
      refine hK.imp ?_
      intro r1 r2 h12
      rw [setRatingValue_songId, setRatingValue_songId,
        setRatingValue_userId, setRatingValue_userId]
      exact h12
    · simp only []
      rw [List.pairwise_append]
      refine ⟨hK, by simp, ?_⟩
      intro x hx b hb
      simp only [List.mem_singleton] at hb
      rw [hb]
      rename_i hany
      have hany' : st.ratings.any (isRatingKey sid u) = false := by
        revert hany; cases st.ratings.any (isRatingKey sid u) <;> simp
      have := List.any_eq_false.mp hany' x hx
      have hxk : isRatingKey sid u x = false := by
        revert this; cases isRatingKey sid u x <;> simp
      rcases not_and_or.mp (isRatingKey_false_iff.mp hxk) with hne | hne
      · exact Or.inl hne
      · exact Or.inr hne
  · unfold RatingValuesValid at *
    unfold upsertRating
    split
    · simp only []
      intro r hr
      rcases List.mem_map.mp hr with ⟨r0, hr0, hr0eq⟩
      unfold setRatingValue at hr0eq
      by_cases hk : isRatingKey sid u r0 = true
      · rw [hk] at hr0eq
        simp only [if_true] at hr0eq
        rw [← hr0eq]
        exact hv
      · have hk' : isRatingKey sid u r0 = false := by
          revert hk; cases isRatingKey sid u r0 <;> simp
        rw [hk'] at hr0eq
        simp only [Bool.false_eq_true, if_false] at hr0eq
        rw [← hr0eq]
        exact hV r0 hr0
    · simp only []
      intro r hr
      rcases List.mem_append.mp hr with hr' | hr'
      · exact hV r hr'
      · simp only [List.mem_singleton] at hr'
        rw [hr']
        exact hv

lemma postRateGen_valid_eq
    (ensure : Store → String → String → Option String → String → Except SqlErr (Nat × Store))
    (st : Store) (h u t a : String) (alb : Option String) (v : Int)
    (hv : v = 1 ∨ v = -1) (hu : u ≠ "") (ht : t ≠ "") (ha : a ≠ "") :
    postRateSqliteGen ensure st h ⟨some v, some u, some t, some a, alb⟩ =
      (match ensure st t a alb h with
       | .ok (sid, st1) =>
         ((.ok successMsg (countThumbsUp (upsertRating st1 sid u v).ratings sid)
             (countThumbsDown (upsertRating st1 sid u v).ratings sid)),
          upsertRating st1 sid u v)
       | .error _ => (.serverError, st)) := by
  have hv0 : v ≠ 0 := by rcases hv with rfl | rfl <;> decide
  have hcond1 : ¬(v = 0 ∨ u = "" ∨ t = "" ∨ a = "") := by
    intro hc
    rcases hc with hc | hc | hc | hc
    exacts [hv0 hc, hu hc, ht hc, ha hc]
  have hcond2 : ¬(v ≠ 1 ∧ v ≠ -1) := by
    intro hc
    rcases hv with rfl | rfl
    · exact hc.1 rfl
    · exact hc.2 rfl
  unfold postRateSqliteGen
  dsimp only
  rw [if_neg hcond1, if_neg hcond2]

lemma postRate_invalid_stable (st : Store) (h : String) (req : RateReq)
    (hbad : ∀ v u t a, req.rating = some v → req.userId = some u →
      req.title = some t → req.artist = some a →
      (v = 0 ∨ u = "" ∨ t = "" ∨ a = "") ∨ (v ≠ 1 ∧ v ≠ -1)) :
    (postRateSqlite st h req).2 = st := by
  rcases req with ⟨r, ru, rt, ra, alb⟩
  unfold postRateSqlite postRateSqliteGen
  cases r with
  | none => cases ru <;> cases rt <;> cases ra <;> rfl
  | some v =>
    cases ru with
    | none => cases rt <;> cases ra <;> rfl
    | some u =>
      cases rt with
      | none => cases ra <;> rfl
      | some t =>
        cases ra with
        | none => rfl
        | some a =>
          dsimp only
          rcases hbad v u t a rfl rfl rfl rfl with hc | hc
          · simp only [hc, if_true]
          · by_cases h1 : v = 0 ∨ u = "" ∨ t = "" ∨ a = ""
            · simp only [h1, if_true]
            · rw [if_neg h1, if_pos hc]

lemma postRate_inv (st : Store) (h : String) (req : RateReq) (hinv : StoreInv st) :
    StoreInv (postRateSqlite st h req).2 := by
  rcases req with ⟨r, ru, rt, ra, alb⟩
  cases r with
  | none =>
    cases ru <;> cases rt <;> cases ra <;> exact hinv
  | some v =>
    cases ru with
    | none => cases rt <;> cases ra <;> exact hinv
    | some u =>
      cases rt with
      | none => cases ra <;> exact hinv
      | some t =>
        cases ra with
        | none => exact hinv
        | some a =>
          unfold postRateSqlite postRateSqliteGen
          dsimp only
          by_cases h1 : v = 0 ∨ u = "" ∨ t = "" ∨ a = ""
          · simp only [h1, if_true]; exact hinv
          · rw [if_neg h1]
            by_cases h2 : v ≠ 1 ∧ v ≠ -1
            · rw [if_pos h2]; exact hinv
            · rw [if_neg h2]
              have hv : v = 1 ∨ v = -1 := by
                rcases not_and_or.mp h2 with hh | hh
                · exact Or.inl (not_not.mp hh)
                · exact Or.inr (not_not.mp hh)
              obtain ⟨sid, st1, he, _, _, hinv1, _, _⟩ :=
                ensureSong_spec st t a alb h hinv
              rw [he]
              exact upsert_inv st1 sid u v hinv1 hv

example :
    (postRateSqlite emptyStore "abc" ⟨some 1, some "u1", some "T", some "A", none⟩).1 =
      .ok successMsg 1 0 := by decide

example :
    (postRateSqlite emptyStore "abc" ⟨some 0, some "u1", some "T", some "A", none⟩).1 =
      .badRequest missingFieldsMsg := by decide

example :
    getUserRatingSqlite
      (postRateSqlite emptyStore "abc" ⟨some (-1), some "u1", some "T", some "A", none⟩).2
      "abc" "u1" = some (-1) := by decide

lemma userMatch_iff {st : Store} {h u : String} {sid : Nat}
    (hex : ∃ s1 ∈ st.songs, s1.id = sid ∧ s1.songHash = h)
    (huniq : ∀ s1 ∈ st.songs, s1.songHash = h → s1.id = sid) (r : Rating) :
    (decide (r.userId = u) &&
        st.songs.any (fun s => decide (s.id = r.songId) && decide (s.songHash = h))) = true ↔
      r.songId = sid ∧ r.userId = u := by
  simp only [Bool.and_eq_true, decide_eq_true_eq, List.any_eq_true]
  constructor
  · rintro ⟨hu', s, hs, hid, hsh⟩
    exact ⟨by rw [← hid]; exact huniq s hs hsh, hu'⟩
  · rintro ⟨hsid, hu'⟩
    rcases hex with ⟨s1, hs1, hs1id, hs1h⟩
    exact ⟨hu', s1, hs1, by rw [hs1id, hsid], hs1h⟩

lemma postRate_decomp (st : Store) (h u t a : String) (alb : Option String) (v : Int)
    (hinv : StoreInv st) (hv : v = 1 ∨ v = -1) (hu : u ≠ "") (ht : t ≠ "") (ha : a ≠ "") :
    ∃ sid st2 A B i,
      postRateSqlite st h ⟨some v, some u, some t, some a, alb⟩ =
        (.ok successMsg (countThumbsUp st2.ratings sid) (countThumbsDown st2.ratings sid),
         st2) ∧
      st2.ratings = A ++ ⟨i, sid, u, v⟩ :: B ∧
      (∀ x ∈ A, isRatingKey sid u x = false) ∧
      (∀ x ∈ B, isRatingKey sid u x = false) ∧
      (∃ s1 ∈ st2.songs, s1.id = sid ∧ s1.songHash = h) ∧
      (∀ s1 ∈ st2.songs, s1.songHash = h → s1.id = sid) ∧
      StoreInv st2 := by
  obtain ⟨sid, st1, he, hr1, hn1, hinv1, hex1, huniq1⟩ := ensureSong_spec st t a alb h hinv
  have hroute := postRateGen_valid_eq ensureSongSqlite st h u t a alb v hv hu ht ha
  rw [he] at hroute
  obtain ⟨A, B, i, hA, hB, hrows, hsongs2, _⟩ :=
    upsert_decomp st1 sid u v hinv1.2.2.2.1
  refine ⟨sid, upsertRating st1 sid u v, A, B, i, hroute, hrows, hA, hB, ?_, ?_,
    upsert_inv st1 sid u v hinv1 hv⟩
  · rw [hsongs2]; exact hex1
  · rw [hsongs2]; exact huniq1

lemma ensure_on_decomposed {st2 : Store} {h : String} {sid : Nat}
    (hex : ∃ s1 ∈ st2.songs, s1.id = sid ∧ s1.songHash = h)
    (huniq : ∀ s1 ∈ st2.songs, s1.songHash = h → s1.id = sid)
    (t a : String) (alb : Option String) :
    ensureSongSqlite st2 t a alb h = .ok (sid, st2) := by
  cases hf : findSongByHash st2 h with
  | none =>
    rcases hex with ⟨s1, hs1, _, hs1h⟩
    exact absurd hs1h (findSongByHash_none hf s1 hs1)
  | some s =>
    obtain ⟨hm, hsh⟩ := findSongByHash_mem hf
    rw [ensureSongSqlite_found t a alb hf, huniq s hm hsh]

lemma getUserRating_after_decomp {st2 : Store} {h u : String} {sid : Nat}
    {A B : List Rating} {i : Nat} {v : Int}
    (hrows : st2.ratings = A ++ ⟨i, sid, u, v⟩ :: B)
    (hA : ∀ x ∈ A, isRatingKey sid u x = false)
    (_hB : ∀ x ∈ B, isRatingKey sid u x = false)
    (hex : ∃ s1 ∈ st2.songs, s1.id = sid ∧ s1.songHash = h)
    (huniq : ∀ s1 ∈ st2.songs, s1.songHash = h → s1.id = sid) :
    getUserRatingSqlite st2 h u = some v := by
  unfold getUserRatingSqlite
  rw [hrows, List.find?_append]
  have hfA : A.find?
      (fun r => decide (r.userId = u) &&
        st2.songs.any fun s => decide (s.id = r.songId) && decide (s.songHash = h)) =
      none := by
    rw [List.find?_eq_none]
    intro x hx hc
    exact absurd ((userMatch_iff hex huniq x).mp hc)
      (isRatingKey_false_iff.mp (hA x hx))
  rw [hfA]
  have hany : (st2.songs.any fun s => decide (s.id = sid) && decide (s.songHash = h)) = true := by
    rcases hex with ⟨s1, hs1, hs1id, hs1h⟩
    refine List.any_eq_true.mpr ⟨s1, hs1, ?_⟩
    simp [hs1id, hs1h]
  simp [List.find?_cons, hany]

lemma userRows_length_one {st2 : Store} {h u : String} {sid : Nat}
    {A B : List Rating} {i : Nat} {v : Int}
    (hrows : st2.ratings = A ++ ⟨i, sid, u, v⟩ :: B)
    (hA : ∀ x ∈ A, isRatingKey sid u x = false)
    (hB : ∀ x ∈ B, isRatingKey sid u x = false)
    (hex : ∃ s1 ∈ st2.songs, s1.id = sid ∧ s1.songHash = h)
    (huniq : ∀ s1 ∈ st2.songs, s1.songHash = h → s1.id = sid) :
    (userRatingRows st2 h u).length = 1 := by
  unfold userRatingRows
  rw [hrows, List.filter_append]
  have hfA : A.filter
      (fun r => decide (r.userId = u) &&
        st2.songs.any fun s => decide (s.id = r.songId) && decide (s.songHash = h)) =
      [] := by
    rw [List.filter_eq_nil_iff]
    intro x hx hc
    exact absurd ((userMatch_iff hex huniq x).mp hc)
      (isRatingKey_false_iff.mp (hA x hx))
  have hfB : B.filter
      (fun r => decide (r.userId = u) &&
        st2.songs.any fun s => decide (s.id = r.songId) && decide (s.songHash = h)) =
      [] := by
    rw [List.filter_eq_nil_iff]
    intro x hx hc
    exact absurd ((userMatch_iff hex huniq x).mp hc)
      (isRatingKey_false_iff.mp (hB x hx))
  have hany : (st2.songs.any fun s => decide (s.id = sid) && decide (s.songHash = h)) = true := by
    rcases hex with ⟨s1, hs1, hs1id, hs1h⟩
    refine List.any_eq_true.mpr ⟨s1, hs1, ?_⟩
    simp [hs1id, hs1h]
  rw [hfA, List.filter_cons]
  simp [hany, hfB]

lemma upsert_same_value_id {st2 : Store} {sid : Nat} {u : String} {v : Int}
    {A B : List Rating} {i : Nat}
    (hrows : st2.ratings = A ++ ⟨i, sid, u, v⟩ :: B)
    (hA : ∀ x ∈ A, isRatingKey sid u x = false)
    (hB : ∀ x ∈ B, isRatingKey sid u x = false) :
    upsertRating st2 sid u v = st2 := by
  have hany : st2.ratings.any (isRatingKey sid u) = true := by
    rw [hrows]
    refine List.any_eq_true.mpr ⟨⟨i, sid, u, v⟩, by simp, by simp [isRatingKey]⟩
  have hmap : st2.ratings.map (setRatingValue sid u v) = st2.ratings := by
    conv_lhs => rw [hrows]
    rw [List.map_append, List.map_cons]
    rw [map_eq_self_of_id (fun y hy => setRatingValue_of_not_key v (hA y hy)),
      map_eq_self_of_id (fun y hy => setRatingValue_of_not_key v (hB y hy))]
    have hset : setRatingValue sid u v ⟨i, sid, u, v⟩ = ⟨i, sid, u, v⟩ := by
      simp [setRatingValue, isRatingKey]
    rw [hset, ← hrows]
  simp only [upsertRating, hany, if_true, hmap]

lemma upsert_flip {st2 : Store} {sid : Nat} {u : String} {v : Int}
    {A B : List Rating} {i : Nat} (w : Int)
    (hrows : st2.ratings = A ++ ⟨i, sid, u, v⟩ :: B)
    (hA : ∀ x ∈ A, isRatingKey sid u x = false)
    (hB : ∀ x ∈ B, isRatingKey sid u x = false) :
    (upsertRating st2 sid u w).ratings = A ++ ⟨i, sid, u, w⟩ :: B ∧
      (upsertRating st2 sid u w).songs = st2.songs := by
  have hany : st2.ratings.any (isRatingKey sid u) = true := by
    rw [hrows]
    refine List.any_eq_true.mpr ⟨⟨i, sid, u, v⟩, by simp, by simp [isRatingKey]⟩
  refine ⟨?_, by simp only [upsertRating, hany, if_true]⟩
  simp only [upsertRating, hany, if_true]
  rw [hrows, List.map_append, List.map_cons]
  rw [map_eq_self_of_id (fun y hy => setRatingValue_of_not_key w (hA y hy)),
    map_eq_self_of_id (fun y hy => setRatingValue_of_not_key w (hB y hy))]
  have hset : setRatingValue sid u w ⟨i, sid, u, v⟩ = ⟨i, sid, u, w⟩ := by
    simp [setRatingValue, isRatingKey]
  rw [hset]

lemma counts_decomp (A B : List Rating) (i sid : Nat) (u : String) (v : Int) :
    countThumbsUp (A ++ ⟨i, sid, u, v⟩ :: B) sid =
      countThumbsUp A sid + countThumbsUp B sid + (if v = 1 then 1 else 0) ∧
    countThumbsDown (A ++ ⟨i, sid, u, v⟩ :: B) sid =
      countThumbsDown A sid + countThumbsDown B sid + (if v = -1 then 1 else 0) := by
  unfold countThumbsUp countThumbsDown
  rw [List.countP_append, List.countP_cons, List.countP_append, List.countP_cons]
  constructor
  · by_cases hv : v = 1 <;> (simp [hv]; try omega)
  · by_cases hv : v = -1 <;> (simp [hv]; try omega)

instance storeInvDecidable (st : Store) : Decidable (StoreInv st) := by
  unfold StoreInv SongHashesUnique SongIdsUnique SongIdsFresh RatingKeysUnique
    RatingValuesValid
  infer_instance

/-- C6: for every songHash with no Song row, the ratings endpoint answers
`{thumbs_up: 0, thumbs_down: 0}` (not an error) and the user-rating endpoint
answers `null` for every userId, in both backend variants. -/
theorem unknown_song_zero_aggregate (st : Store) (h u : String)
    (habs : ∀ s ∈ st.songs, s.songHash ≠ h) :
    getRatingsSqlite st h = (0, 0) ∧ getUserRatingSqlite st h u = none ∧
      getRatingsPg st h = (0, 0) ∧ getUserRatingPg st h u = none := by
  have hjoin : joinedRatings st h = [] := by
    unfold joinedRatings
    rw [List.filter_eq_nil_iff]
    intro r hr hc
    simp only [List.any_eq_true, Bool.and_eq_true, decide_eq_true_eq] at hc
    rcases hc with ⟨s, hs, hsh, _⟩
    exact habs s hs hsh
  have hfind : st.ratings.find?
      (fun r => decide (r.userId = u) &&
        st.songs.any fun s => decide (s.id = r.songId) && decide (s.songHash = h)) =
      none := by
    rw [List.find?_eq_none]
    intro r hr hc
    simp only [Bool.and_eq_true, decide_eq_true_eq, List.any_eq_true] at hc
    rcases hc with ⟨_, s, hs, _, hsh⟩
    exact habs s hs hsh
  refine ⟨?_, ?_, ?_, ?_⟩
  · simp [getRatingsSqlite, hjoin]
  · simp [getUserRatingSqlite, hfind]
  · simp [getRatingsPg, hjoin]
  · simp [getUserRatingPg, hfind]

/-- Witness for C6 on a store that already holds a different song. -/
theorem unknown_song_zero_aggregate_witness :
    getRatingsSqlite
        (postRateSqlite emptyStore "known" ⟨some 1, some "u1", some "T", some "A", none⟩).2
        "never-seen-hash" = (0, 0) ∧
      getUserRatingSqlite
        (postRateSqlite emptyStore "known" ⟨some 1, some "u1", some "T", some "A", none⟩).2
        "never-seen-hash" "anyone" = none ∧
      getRatingsPg
        (postRateSqlite emptyStore "known" ⟨some 1, some "u1", some "T", some "A", none⟩).2
        "never-seen-hash" = (0, 0) ∧
      getUserRatingPg
        (postRateSqlite emptyStore "known" ⟨some 1, some "u1", some "T", some "A", none⟩).2
        "never-seen-hash" "anyone" = none :=
  unknown_song_zero_aggregate _ "never-seen-hash" "anyone" (by decide)

/-- C8: on every store state and request, the SQLite variant of `server.js`
and the PostgreSQL variant of `server-postgres.js` return the same response
body and leave the same store for each of the three rating endpoints. -/
theorem backend_equivalence (st : Store) (h u : String) (req : RateReq) :
    postRateSqlite st h req = postRatePg st h req ∧
      getRatingsSqlite st h = getRatingsPg st h ∧
      getUserRatingSqlite st h u = getUserRatingPg st h u := by
  refine ⟨?_, rfl, rfl⟩
  unfold postRateSqlite postRateSqliteGen postRatePg
  rcases req with ⟨r, ru, rt, ra, alb⟩
  cases r <;> cases ru <;> cases rt <;> cases ra <;>
    first
      | rfl
      | (dsimp only; rw [ensureSong_sqlite_eq_pg])

/-- C9: a track without an album hashes exactly like the same track with an
empty-string album (the `|| ''` fallback, never the text "undefined"), in
the shared hash utility and in the client player's copy, and the two copies
agree. -/
theorem songHash_missing_album (artist title : String)
    (hartist : artist ≠ "") (htitle : title ≠ "") :
    getSongHashUtils ⟨artist, title, none⟩ = getSongHashUtils ⟨artist, title, some ""⟩ ∧
      radioGetSongHash ⟨artist, title, none⟩ = radioGetSongHash ⟨artist, title, some ""⟩ ∧
      getSongHashUtils ⟨artist, title, none⟩ = .ok (radioGetSongHash ⟨artist, title, none⟩) ∧
      songHashInput ⟨artist, title, none⟩ = (artist ++ "_" ++ title ++ "_").toLower := by
  refine ⟨rfl, rfl, ?_, ?_⟩
  · unfold getSongHashUtils
    rw [if_neg]
    · rfl
    · rintro (hc | hc)
      · exact hartist hc
      · exact htitle hc
  · unfold songHashInput albumOrEmpty
    rw [String.append_empty]

/-- Witness for C9 at the concrete track ("Artist", "Title"). -/
theorem songHash_missing_album_witness :
    getSongHashUtils ⟨"Artist", "Title", none⟩ = getSongHashUtils ⟨"Artist", "Title", some ""⟩ ∧
      radioGetSongHash ⟨"Artist", "Title", none⟩ = radioGetSongHash ⟨"Artist", "Title", some ""⟩ ∧
      getSongHashUtils ⟨"Artist", "Title", none⟩ = .ok (radioGetSongHash ⟨"Artist", "Title", none⟩) ∧
      songHashInput ⟨"Artist", "Title", none⟩ = ("Artist" ++ "_" ++ "Title" ++ "_").toLower :=
  songHash_missing_album "Artist" "Title" (by decide) (by decide)

lemma postRate_invalid_value_cases (st : Store) (h u t a : String) (alb : Option String)
    (v : Int) (hv1 : v ≠ 1) (hv2 : v ≠ -1) :
    postRateSqlite st h ⟨some v, some u, some t, some a, alb⟩ =
      (if v = 0 ∨ u = "" ∨ t = "" ∨ a = "" then ((.badRequest missingFieldsMsg : RateResponse), st)
       else (.badRequest invalidRatingMsg, st)) ∧
    postRatePg st h ⟨some v, some u, some t, some a, alb⟩ =
      (if v = 0 ∨ u = "" ∨ t = "" ∨ a = "" then ((.badRequest missingFieldsMsg : RateResponse), st)
       else (.badRequest invalidRatingMsg, st)) := by
  constructor
  · unfold postRateSqlite postRateSqliteGen
    dsimp only
    by_cases h1 : v = 0 ∨ u = "" ∨ t = "" ∨ a = ""
    · rw [if_pos h1, if_pos h1]
    · rw [if_neg h1, if_neg h1, if_pos ⟨hv1, hv2⟩]
  · unfold postRatePg
    dsimp only
    by_cases h1 : v = 0 ∨ u = "" ∨ t = "" ∨ a = ""
    · rw [if_pos h1, if_pos h1]
    · rw [if_neg h1, if_neg h1, if_pos ⟨hv1, hv2⟩]

/-- C1 counterexample: `submitRating` with value 0 is rejected through the
missing-fields truthiness guard (`!rating` is true for 0), i.e. with the
`MissingField` error body, which differs from the `InvalidRating` error body
the claim asserts for every value outside {1, -1}. -/
theorem invalid_rating_zero_counterexample :
    (postRateSqlite emptyStore "h1" ⟨some 0, some "u1", some "T", some "A", none⟩).1 =
        .badRequest missingFieldsMsg ∧
      (postRatePg emptyStore "h1" ⟨some 0, some "u1", some "T", some "A", none⟩).1 =
        .badRequest missingFieldsMsg ∧
      missingFieldsMsg ≠ invalidRatingMsg := by
  refine ⟨by decide, by decide, by decide⟩

/-- C1 (amended): every call whose value is outside {1, -1} is rejected with
HTTP 400 and mutates neither relation, in both backends; a nonzero invalid
value with all required fields present yields the `InvalidRating` body,
while value 0 trips the falsy missing-fields guard and yields the
`MissingField` body. -/
theorem invalid_rating_rejected (st : Store) (h u t a : String) (alb : Option String)
    (v : Int) (hv1 : v ≠ 1) (hv2 : v ≠ -1) :
    ((postRateSqlite st h ⟨some v, some u, some t, some a, alb⟩).2 = st ∧
      (postRatePg st h ⟨some v, some u, some t, some a, alb⟩).2 = st) ∧
    (v = 0 →
      (postRateSqlite st h ⟨some v, some u, some t, some a, alb⟩).1 =
        .badRequest missingFieldsMsg) ∧
    (v ≠ 0 → u ≠ "" → t ≠ "" → a ≠ "" →
      (postRateSqlite st h ⟨some v, some u, some t, some a, alb⟩).1 =
        .badRequest invalidRatingMsg) ∧
    (∃ msg, (postRateSqlite st h ⟨some v, some u, some t, some a, alb⟩).1 =
        .badRequest msg ∧
      (postRatePg st h ⟨some v, some u, some t, some a, alb⟩).1 = .badRequest msg) := by
  obtain ⟨hs, hp⟩ := postRate_invalid_value_cases st h u t a alb v hv1 hv2
  by_cases h1 : v = 0 ∨ u = "" ∨ t = "" ∨ a = ""
  · rw [if_pos h1] at hs hp
    refine ⟨⟨by rw [hs], by rw [hp]⟩, fun _ => by rw [hs], ?_, missingFieldsMsg,
      by rw [hs], by rw [hp]⟩
    intro hv0 hu ht ha
    rcases h1 with hc | hc | hc | hc
    exacts [absurd hc hv0, absurd hc hu, absurd hc ht, absurd hc ha]
  · rw [if_neg h1] at hs hp
    refine ⟨⟨by rw [hs], by rw [hp]⟩, ?_, fun _ _ _ _ => by rw [hs], invalidRatingMsg,
      by rw [hs], by rw [hp]⟩
    intro hv0
    exact absurd (Or.inl hv0) h1

/-- Witness for C1 (amended) at value 2 on the empty store. -/
theorem invalid_rating_rejected_witness :
    ((postRateSqlite emptyStore "h1" ⟨some 2, some "u1", some "T", some "A", none⟩).2 =
        emptyStore ∧
      (postRatePg emptyStore "h1" ⟨some 2, some "u1", some "T", some "A", none⟩).2 =
        emptyStore) ∧
    ((2 : Int) = 0 →
      (postRateSqlite emptyStore "h1" ⟨some 2, some "u1", some "T", some "A", none⟩).1 =
        .badRequest missingFieldsMsg) ∧
    ((2 : Int) ≠ 0 → "u1" ≠ "" → "T" ≠ "" → "A" ≠ "" →
      (postRateSqlite emptyStore "h1" ⟨some 2, some "u1", some "T", some "A", none⟩).1 =
        .badRequest invalidRatingMsg) ∧
    (∃ msg,
      (postRateSqlite emptyStore "h1" ⟨some 2, some "u1", some "T", some "A", none⟩).1 =
        .badRequest msg ∧
      (postRatePg emptyStore "h1" ⟨some 2, some "u1", some "T", some "A", none⟩).1 =
        .badRequest msg) :=
  invalid_rating_rejected emptyStore "h1" "u1" "T" "A" none 2 (by decide) (by decide)

/-- C7: inside the rate transaction, a song insert that loses the uniqueness
race is recovered locally (the existing row is re-read by hash and its id
returned, the store untouched and no error surfaced, and the request still
succeeds), while any error other than the uniqueness violation propagates
out of the catch and surfaces as the 500 response with the store unchanged. -/
theorem ensureSong_insert_or_fetch :
    (∀ (st : Store) (t a : String) (alb : Option String) (h : String) (s : Song),
      findSongByHash st h = some s →
      ensureSongSqlite st t a alb h = .ok (s.id, st)) ∧
    (∀ (st : Store) (h : String) (e : SqlErr), e ≠ .uniqueConstraint →
      catchSongInsert (.error e) st h = .error e) ∧
    (∀ (ensure : Store → String → String → Option String → String →
        Except SqlErr (Nat × Store))
      (st : Store) (h u t a : String) (alb : Option String) (v : Int) (e : SqlErr),
      ensure st t a alb h = .error e → (v = 1 ∨ v = -1) →
      u ≠ "" → t ≠ "" → a ≠ "" →
      postRateSqliteGen ensure st h ⟨some v, some u, some t, some a, alb⟩ =
        (.serverError, st)) ∧
    (∀ (st : Store) (h u t a : String) (alb : Option String) (v : Int) (s : Song),
      findSongByHash st h = some s → (v = 1 ∨ v = -1) →
      u ≠ "" → t ≠ "" → a ≠ "" →
      ∃ up down, (postRateSqlite st h ⟨some v, some u, some t, some a, alb⟩).1 =
        .ok successMsg up down) := by
  refine ⟨?_, ?_, ?_, ?_⟩
  · intro st t a alb h s hf
    exact ensureSongSqlite_found t a alb hf
  · intro st h e he
    cases e with
    | uniqueConstraint => exact absurd rfl he
    | checkConstraint => rfl
    | typeError => rfl
    | otherError => rfl
  · intro ensure st h u t a alb v e he hv hu ht ha
    rw [postRateGen_valid_eq ensure st h u t a alb v hv hu ht ha, he]
  · intro st h u t a alb v s hf hv hu ht ha
    have hroute := postRateGen_valid_eq ensureSongSqlite st h u t a alb v hv hu ht ha
    rw [ensureSongSqlite_found t a alb hf] at hroute
    refine ⟨countThumbsUp (upsertRating st s.id u v).ratings s.id,
      countThumbsDown (upsertRating st s.id u v).ratings s.id, ?_⟩
    unfold postRateSqlite
    rw [hroute]

/-- Witness for C7: the race recovery, propagation of a non-unique error,
its 500 surfacing, and the successful request, all at concrete inputs. -/
theorem ensureSong_insert_or_fetch_witness :
    (ensureSongSqlite
        (postRateSqlite emptyStore "h1" ⟨some 1, some "u1", some "T", some "A", none⟩).2
        "T" "A" none "h1" =
      .ok ((1 : Nat),
        (postRateSqlite emptyStore "h1" ⟨some 1, some "u1", some "T", some "A", none⟩).2)) ∧
    (catchSongInsert (.error .otherError) emptyStore "h1" = .error .otherError) ∧
    (postRateSqliteGen (fun _ _ _ _ _ => .error .otherError) emptyStore "h1"
        ⟨some 1, some "u1", some "T", some "A", none⟩ = (.serverError, emptyStore)) ∧
    (∃ up down,
      (postRateSqlite
          (postRateSqlite emptyStore "h1" ⟨some 1, some "u1", some "T", some "A", none⟩).2
          "h1" ⟨some (-1), some "u2", some "T", some "A", none⟩).1 =
        .ok successMsg up down) := by
  refine ⟨?_, ?_, ?_, ?_⟩
  · exact ensureSong_insert_or_fetch.1 _ "T" "A" none "h1" ⟨1, "T", "A", none, "h1"⟩
      (by decide)
  · exact ensureSong_insert_or_fetch.2.1 emptyStore "h1" .otherError (by decide)
  · exact ensureSong_insert_or_fetch.2.2.1 _ emptyStore "h1" "u1" "T" "A" none 1
      .otherError rfl (Or.inl rfl) (by decide) (by decide) (by decide)
  · exact ensureSong_insert_or_fetch.2.2.2 _ "h1" "u2" "T" "A" none (-1)
      ⟨1, "T", "A", none, "h1"⟩ (by decide) (Or.inr rfl) (by decide) (by decide)
      (by decide)

/-- C2: after a successful valid submission, the user-rating endpoint reads
back exactly the submitted value. -/
theorem submit_then_getUserRating (st : Store) (h u t a : String) (alb : Option String)
    (v : Int) (hinv : StoreInv st) (hv : v = 1 ∨ v = -1)
    (hu : u ≠ "") (ht : t ≠ "") (ha : a ≠ "") :
    getUserRatingSqlite (postRateSqlite st h ⟨some v, some u, some t, some a, alb⟩).2 h u =
      some v := by
  obtain ⟨sid, st2, A, B, i, hresp, hrows, hA, hB, hex, huniq, _⟩ :=
    postRate_decomp st h u t a alb v hinv hv hu ht ha
  rw [show (postRateSqlite st h ⟨some v, some u, some t, some a, alb⟩).2 = st2 from
    by rw [hresp]]
  exact getUserRating_after_decomp hrows hA hB hex huniq

/-- Witness for C2 on the empty store. -/
theorem submit_then_getUserRating_witness :
    getUserRatingSqlite
        (postRateSqlite emptyStore "abc" ⟨some 1, some "u1", some "T", some "A", none⟩).2
        "abc" "u1" = some 1 :=
  submit_then_getUserRating emptyStore "abc" "u1" "T" "A" none 1 storeInv_empty
    (Or.inl rfl) (by decide) (by decide) (by decide)

lemma submitSeq_single_row (vs : List Int) :
    ∀ st : Store, StoreInv st → vs ≠ [] → (∀ v ∈ vs, v = 1 ∨ v = -1) →
      ∀ (h u t a : String) (alb : Option String), u ≠ "" → t ≠ "" → a ≠ "" →
      (userRatingRows (submitSeq st h u t a alb vs) h u).length = 1 := by
  induction vs with
  | nil =>
    intro st _ hne
    exact absurd rfl hne
  | cons v rest ih =>
    intro st hinv _ hvs h u t a alb hu ht ha
    have hv := hvs v (List.mem_cons_self v rest)
    cases rest with
    | nil =>
      obtain ⟨sid, st2, A, B, i, hresp, hrows, hA, hB, hex, huniq, _⟩ :=
        postRate_decomp st h u t a alb v hinv hv hu ht ha
      show (userRatingRows
        (postRateSqlite st h ⟨some v, some u, some t, some a, alb⟩).2 h u).length = 1
      rw [show (postRateSqlite st h ⟨some v, some u, some t, some a, alb⟩).2 = st2 from
        by rw [hresp]]
      exact userRows_length_one hrows hA hB hex huniq
    | cons w rest2 =>
      have hstep : submitSeq st h u t a alb (v :: w :: rest2) =
          submitSeq (postRateSqlite st h ⟨some v, some u, some t, some a, alb⟩).2
            h u t a alb (w :: rest2) := rfl
      rw [hstep]
      exact ih _ (postRate_inv st h _ hinv) (by simp)
        (fun x hx => hvs x (List.mem_cons_of_mem v hx)) h u t a alb hu ht ha

/-- C3: after any nonempty sequence of valid submissions for one
`(songHash, userId)` pair, exactly one Rating row exists for the pair; and
every rate operation preserves the at-most-one-row-per-`(songId, userId)`
uniqueness invariant. -/
theorem submit_sequence_single_row :
    (∀ (st : Store) (h u t a : String) (alb : Option String) (vs : List Int),
      StoreInv st → vs ≠ [] → (∀ v ∈ vs, v = 1 ∨ v = -1) →
      u ≠ "" → t ≠ "" → a ≠ "" →
      (userRatingRows (submitSeq st h u t a alb vs) h u).length = 1) ∧
    (∀ (st : Store) (h : String) (req : RateReq), StoreInv st →
      RatingKeysUnique (postRateSqlite st h req).2) := by
  refine ⟨?_, ?_⟩
  · intro st h u t a alb vs hinv hne hvs hu ht ha
    exact submitSeq_single_row vs st hinv hne hvs h u t a alb hu ht ha
  · intro st h req hinv
    exact (postRate_inv st h req hinv).2.2.2.1

/-- Witness for C3 with the three-element value sequence [1, 1, -1]. -/
theorem submit_sequence_single_row_witness :
    (userRatingRows (submitSeq emptyStore "abc" "u1" "T" "A" none [1, 1, -1]) "abc" "u1").length
        = 1 ∧
      RatingKeysUnique
        (postRateSqlite emptyStore "abc" ⟨some 1, some "u1", some "T", some "A", none⟩).2 :=
  ⟨submit_sequence_single_row.1 emptyStore "abc" "u1" "T" "A" none [1, 1, -1]
      storeInv_empty (by decide) (by decide) (by decide) (by decide) (by decide),
    submit_sequence_single_row.2 emptyStore "abc" _ storeInv_empty⟩

/-- C4: resubmitting the same valid rating is idempotent on the aggregate:
the ratings endpoint reads the same counts after the second call as after
the first. -/
theorem submit_idempotent_aggregate (st : Store) (h u t a : String) (alb : Option String)
    (v : Int) (hinv : StoreInv st) (hv : v = 1 ∨ v = -1)
    (hu : u ≠ "") (ht : t ≠ "") (ha : a ≠ "") :
    getRatingsSqlite
        (postRateSqlite (postRateSqlite st h ⟨some v, some u, some t, some a, alb⟩).2
          h ⟨some v, some u, some t, some a, alb⟩).2 h =
      getRatingsSqlite (postRateSqlite st h ⟨some v, some u, some t, some a, alb⟩).2 h := by
  obtain ⟨sid, st2, A, B, i, hresp, hrows, hA, hB, hex, huniq, _⟩ :=
    postRate_decomp st h u t a alb v hinv hv hu ht ha
  have hst2 : (postRateSqlite st h ⟨some v, some u, some t, some a, alb⟩).2 = st2 := by
    rw [hresp]
  rw [hst2]
  have hroute2 := postRateGen_valid_eq ensureSongSqlite st2 h u t a alb v hv hu ht ha
  rw [ensure_on_decomposed hex huniq t a alb] at hroute2
  dsimp only at hroute2
  rw [upsert_same_value_id hrows hA hB] at hroute2
  have hst3 : (postRateSqlite st2 h ⟨some v, some u, some t, some a, alb⟩).2 = st2 := by
    unfold postRateSqlite
    rw [hroute2]
  rw [hst3]

/-- Witness for C4 on the empty store. -/
theorem submit_idempotent_aggregate_witness :
    getRatingsSqlite
        (postRateSqlite
          (postRateSqlite emptyStore "abc" ⟨some 1, some "u1", some "T", some "A", none⟩).2
          "abc" ⟨some 1, some "u1", some "T", some "A", none⟩).2 "abc" =
      getRatingsSqlite
        (postRateSqlite emptyStore "abc" ⟨some 1, some "u1", some "T", some "A", none⟩).2
        "abc" :=
  submit_idempotent_aggregate emptyStore "abc" "u1" "T" "A" none 1 storeInv_empty
    (Or.inl rfl) (by decide) (by decide) (by decide)

/-- C5: submitting +1 and then -1 for the same pair lowers `thumbsUp` by one
and raises `thumbsDown` by one relative to the response of the first call,
and exactly one Rating row exists for the pair afterwards. -/
theorem submit_flip_aggregate (st : Store) (h u t a : String) (alb : Option String)
    (hinv : StoreInv st) (hu : u ≠ "") (ht : t ≠ "") (ha : a ≠ "") :
    ∃ up down,
      (postRateSqlite st h ⟨some 1, some u, some t, some a, alb⟩).1 =
        .ok successMsg (up + 1) down ∧
      (postRateSqlite (postRateSqlite st h ⟨some 1, some u, some t, some a, alb⟩).2 h
          ⟨some (-1), some u, some t, some a, alb⟩).1 =
        .ok successMsg up (down + 1) ∧
      (userRatingRows
          (postRateSqlite (postRateSqlite st h ⟨some 1, some u, some t, some a, alb⟩).2 h
            ⟨some (-1), some u, some t, some a, alb⟩).2 h u).length = 1 := by
  obtain ⟨sid, st2, A, B, i, hresp, hrows, hA, hB, hex, huniq, hinv2⟩ :=
    postRate_decomp st h u t a alb 1 hinv (Or.inl rfl) hu ht ha
  have hst2 : (postRateSqlite st h ⟨some 1, some u, some t, some a, alb⟩).2 = st2 := by
    rw [hresp]
  obtain ⟨hcu1, hcd1⟩ := counts_decomp A B i sid u 1
  obtain ⟨hcu2, hcd2⟩ := counts_decomp A B i sid u (-1)
  have hroute2 := postRateGen_valid_eq ensureSongSqlite st2 h u t a alb (-1)
    (Or.inr rfl) hu ht ha
  rw [ensure_on_decomposed hex huniq t a alb] at hroute2
  dsimp only at hroute2
  obtain ⟨hrows3, hsongs3⟩ := upsert_flip (-1) hrows hA hB
  refine ⟨countThumbsUp A sid + countThumbsUp B sid,
    countThumbsDown A sid + countThumbsDown B sid, ?_, ?_, ?_⟩
  · rw [hresp]
    dsimp only
    rw [hrows, hcu1, hcd1]
    simp
  · rw [hst2]
    unfold postRateSqlite
    rw [hroute2]
    dsimp only
    rw [hrows3, hcu2, hcd2]
    simp
  · rw [hst2]
    unfold postRateSqlite
    rw [hroute2]
    dsimp only
    refine userRows_length_one hrows3 hA hB ?_ ?_
    · rw [hsongs3]; exact hex
    · rw [hsongs3]; exact huniq

/-- Witness for C5 on a store already holding another user's thumbs-up. -/
theorem submit_flip_aggregate_witness :
    ∃ up down,
      (postRateSqlite
          (postRateSqlite emptyStore "abc" ⟨some 1, some "u2", some "T", some "A", none⟩).2
          "abc" ⟨some 1, some "u1", some "T", some "A", none⟩).1 =
        .ok successMsg (up + 1) down ∧
      (postRateSqlite
          (postRateSqlite
            (postRateSqlite emptyStore "abc" ⟨some 1, some "u2", some "T", some "A", none⟩).2
            "abc" ⟨some 1, some "u1", some "T", some "A", none⟩).2
          "abc" ⟨some (-1), some "u1", some "T", some "A", none⟩).1 =
        .ok successMsg up (down + 1) ∧
      (userRatingRows
          (postRateSqlite
            (postRateSqlite
              (postRateSqlite emptyStore "abc" ⟨some 1, some "u2", some "T", some "A", none⟩).2
              "abc" ⟨some 1, some "u1", some "T", some "A", none⟩).2
            "abc" ⟨some (-1), some "u1", some "T", some "A", none⟩).2 "abc" "u1").length = 1 :=
  submit_flip_aggregate
    (postRateSqlite emptyStore "abc" ⟨some 1, some "u2", some "T", some "A", none⟩).2
    "abc" "u1" "T" "A" none (by decide) (by decide) (by decide) (by decide)

lemma countP_values_split (l : List Rating)
    (hl : ∀ r ∈ l, r.value = 1 ∨ r.value = -1) :
    l.countP (fun r => decide (r.value = 1)) + l.countP (fun r => decide (r.value = -1)) =
      l.length := by
  induction l with
  | nil => rfl
  | cons r tl ih =>
    have h := hl r (List.mem_cons_self r tl)
    have ih2 := ih (fun x hx => hl x (List.mem_cons_of_mem r hx))
    rw [List.countP_cons, List.countP_cons, List.length_cons]
    rcases h with h1 | h1 <;> simp [h1] <;> omega

/-- C10: under the schema invariants, the aggregate read for any songHash
satisfies `thumbsUp + thumbsDown = number of Rating rows joined to that
song` (every row holds 1 or -1 and lands in exactly one sum); the rate
operation preserves the invariants and they hold initially. -/
theorem aggregate_partition :
    (∀ (st : Store) (h : String), StoreInv st →
      (getRatingsSqlite st h).1 + (getRatingsSqlite st h).2 =
        (joinedRatings st h).length) ∧
    (∀ (st : Store) (h : String) (req : RateReq), StoreInv st →
      StoreInv (postRateSqlite st h req).2) ∧
    StoreInv emptyStore := by
  refine ⟨?_, postRate_inv, storeInv_empty⟩
  intro st h hinv
  exact countP_values_split _
    (fun r hr => hinv.2.2.2.2 r (List.mem_filter.mp hr).1)

/-- Witness for C10 after two submissions for the same song. -/
theorem aggregate_partition_witness :
    ((getRatingsSqlite
        (postRateSqlite
          (postRateSqlite emptyStore "abc" ⟨some 1, some "u1", some "T", some "A", none⟩).2
          "abc" ⟨some (-1), some "u2", some "T", some "A", none⟩).2 "abc").1 +
      (getRatingsSqlite
        (postRateSqlite
          (postRateSqlite emptyStore "abc" ⟨some 1, some "u1", some "T", some "A", none⟩).2
          "abc" ⟨some (-1), some "u2", some "T", some "A", none⟩).2 "abc").2 =
      (joinedRatings
        (postRateSqlite
          (postRateSqlite emptyStore "abc" ⟨some 1, some "u1", some "T", some "A", none⟩).2
          "abc" ⟨some (-1), some "u2", some "T", some "A", none⟩).2 "abc").length) ∧
    StoreInv
      (postRateSqlite
        (postRateSqlite emptyStore "abc" ⟨some 1, some "u1", some "T", some "A", none⟩).2
        "xyz" ⟨some (-1), some "u2", some "T2", some "A2", none⟩).2 :=
  ⟨aggregate_partition.1 _ "abc" (by decide),
    aggregate_partition.2.1 _ "xyz" _ (by decide)⟩

example : hashString "a" = "2p" := by decide

example :
    (postRateSqlite emptyStore "abc" ⟨some 1, some "u1", some "T", some "A", none⟩).1 =
      .ok successMsg 1 0 ∧
    (postRateSqlite
      (postRateSqlite emptyStore "abc" ⟨some 1, some "u1", some "T", some "A", none⟩).2
      "abc" ⟨some (-1), some "u2", some "T", some "A", none⟩).1 = .ok successMsg 1 1 ∧
    (postRateSqlite
      (postRateSqlite
        (postRateSqlite emptyStore "abc" ⟨some 1, some "u1", some "T", some "A", none⟩).2
        "abc" ⟨some (-1), some "u2", some "T", some "A", none⟩).2
      "abc" ⟨some (-1), some "u1", some "T", some "A", none⟩).1 = .ok successMsg 0 2 := by
  decide
